import Mathlib

/-!
Verification development for the trade reconciliation and position-ledger
engine of `recorder.py` (TWS_Trader).  The Python code is shallowly embedded:
prices, commissions and P&L figures are modelled as rationals (the source
works with Python floats carrying decimal quotes), share counts as integers,
the pandas ledger tables as lists of records, and the per-ticker `trades`
dictionary as an association list from dictionary key to row.  A dictionary
key that is absent (pandas NaN / Python key-not-present) is modelled by
`Option.none`; `dict.update(d)` is modelled by a record update that sets
exactly the fields appearing in the corresponding Python dict literal `d`.
-/

namespace TWS

/-- One row of yesterday's positions spreadsheet (`yespos` in `recorder.py`,
read from `data/positions.xlsx`).  The columns that the code reads through
`max(...)` or `.iloc[0]` are modelled as plain rationals; `option price` and
`price`, which the code tests for being a populated (non-NaN) float, are
modelled as `Option` so that `isSome` captures the populated check. -/
structure YesRow where
  ticker : String
  tradePrice : ℚ := 0
  legPrice : ℚ := 0
  optionTradePrice : ℚ := 0
  optionPrice : Option ℚ := none
  price : Option ℚ := none
  underSize : Int := 0
deriving DecidableEq, Inhabited

/-- One execution record (`fill.execution`): side is the raw TWS string
(`"BOT"`/`"SLD"`), `shares` the unsigned fill size, and the date/time strings
are the New-York local strings the code derives with `astimezone`. -/
structure Execution where
  side : String
  shares : Int
  price : ℚ
  dateStr : String
  timeStr : String
deriving DecidableEq, Inhabited

/-- `fill.commissionReport`: commission charged and realized P&L of one fill. -/
structure CommReport where
  commission : ℚ
  realizedPNL : ℚ
deriving DecidableEq, Inhabited

/-- One fill event delivered for a trade. -/
structure Fill where
  exe : Execution
  rep : CommReport
deriving DecidableEq, Inhabited

/-- Option-contract metadata used by the recorder: expiration
(`lastTradeDateOrContractMonth`, modelled as the number `yyyymmdd`), strike,
and the contract multiplier. -/
structure OptContract where
  doe : Nat
  strike : ℚ
  mult : Int := 100
deriving DecidableEq, Inhabited

/-- One entry of the `trades` dictionary (equivalently one row of
`trades_df`).  Every column the trade-processing branches of `recorder.py`
may write is present; `none` models a key the Python dict does not (yet)
hold.  `ticker` is always present (set when the stub `{'ticker': symbol}` is
created). -/
structure TradeRow where
  ticker : String
  date : Option String := none
  time : Option String := none
  action : Option String := none
  price : Option ℚ := none
  tradePrice : Option ℚ := none
  legPrice : Option ℚ := none
  strike : Option ℚ := none
  doe : Option Nat := none
  optionPrice : Option ℚ := none
  optionTradePrice : Option ℚ := none
  commission : Option ℚ := none
  optionSize : Option Int := none
  underSize : Option Int := none
  positionBal : Option ℚ := none
  acctBal : Option ℚ := none
  pnlUnderlying : Option ℚ := none
  pnlUnderlyingLeg : Option ℚ := none
  pnlOption : Option ℚ := none
deriving DecidableEq, Inhabited

/-- The `trades` dictionary: insertion-ordered association list from
dictionary key (symbol, or symbol followed by an asterisk for the write leg
of a rollover) to the accumulated row. -/
abbrev Trades := List (String × TradeRow)

/-- `max` over a list of candidate basis values, as Python's `max(series)`
on the (nonempty, by the guarding branch conditions) filtered column. -/
def listMax : List ℚ → ℚ
  | [] => 0
  | [x] => x
  | x :: y :: xs => max x (listMax (y :: xs))

/-- `yespos.loc[yespos['ticker'] == symbol]`: the rows of yesterday's ledger
whose ticker matches. -/
def yesMatches (yespos : List YesRow) (sym : String) : List YesRow :=
  yespos.filter (fun r => r.ticker == sym)

/-- Python's `str.startswith`, evaluated structurally on the character
lists so that concrete instances reduce by `decide`. -/
def strStartsWith (s p : String) : Bool :=
  p.data.isPrefixOf s.data

/-- Look a key up in an association list, with the `Inhabited` default for a
missing key. -/
def lookupD {α : Type} [Inhabited α] (l : List (String × α)) (k : String) : α :=
  (((l.find? (fun p => p.1 == k)).map (fun p => p.2)).getD default)

/-- In-place update of the value stored at a key (Python dict assignment to
an existing key keeps the insertion position). -/
def updateAssoc {α : Type} (l : List (String × α)) (k : String) (v : α) :
    List (String × α) :=
  l.map (fun p => if p.1 == k then (k, v) else p)

/-- `if key not in dict: dict[key] = stub` — appends at the end, preserving
Python dict insertion order. -/
def ensureKey {α : Type} (l : List (String × α)) (k : String) (v : α) :
    List (String × α) :=
  if l.any (fun p => p.1 == k) then l else l ++ [(k, v)]

/-- One combo leg's metadata (`qqq.comboLegs[i]`): `ratioVal` embeds the
`ratio` field, `action` the `BUY`/`SELL` string. -/
structure ComboLeg where
  ratioVal : Int
  action : String
deriving DecidableEq, Inhabited

/-- `recorder.py` lines 313-321: classification of a two-leg Bag order from
its leg metadata. -/
def comboAction (l0 l1 : ComboLeg) : String :=
  if l0.ratioVal == 1 && l1.ratioVal == 1 && l0.action != l1.action then
    "ROLLOVER"
  else if (l0.action == "BUY" && l0.ratioVal == 100) ||
      (l1.action == "BUY" && l1.ratioVal == 100) then
    "BUY WRITE"
  else
    "Unknown"

/-- `recorder.py` lines 84-86: `recover_trades_flag` is forced off whenever
`read_trades_flag` is set.  Returns the effective pair of flags. -/
def effectiveFlags (readTradesFlag recoverTradesFlag : Bool) : Bool × Bool :=
  if readTradesFlag then (readTradesFlag, false)
  else (readTradesFlag, recoverTradesFlag)

/-- `recorder.py` lines 169-175: in recovery mode the engine reads a pickle
file instead of calling `ib.trades()`.  Returns the path read, or `none`
when fills are fetched live.  The source hard-codes the path
`./data/trades-2023-07-20.pkl`. -/
def recoveryReadFile (readTradesFlag recoverTradesFlag : Bool) :
    Option String :=
  let flags := effectiveFlags readTradesFlag recoverTradesFlag
  if flags.2 then some "./data/trades-2023-07-20.pkl" else none

/-- `recorder.py` line 182 (and the module docstring): the per-date trades
pickle written for a given run date, `./data/trades-<date>.pkl`. -/
def todayTradesFile (logDate : String) : String :=
  "./data/trades-" ++ logDate ++ ".pkl"

/-- The stub entry `{'ticker': symbol}` created at `recorder.py` line 193
the first time a symbol is seen in the trades loop. -/
def stubRow (sym : String) : TradeRow := { ticker := sym }

/-- `recorder.py` lines 194-237: processing of one fill of an option-only
trade for `sym`, updating the symbol's `trades` dictionary entry `row`.
Yesterday's ledger `yespos` supplies the CLOSE-CC detection and basis;
`acct` is the account-value snapshot. -/
def processOptionFill (yespos : List YesRow) (acct : ℚ) (con : OptContract)
    (sym : String) (fill : Fill) (row : TradeRow) : TradeRow :=
  let exe := fill.exe
  let optionShares : Int := if exe.side == "SLD" then -exe.shares else exe.shares
  let base : String × ℚ :=
    if exe.side == "SLD" then ("SELL CC", exe.price)
    else if exe.side == "BOT" then
      let ms := yesMatches yespos sym
      if ms.length == 1 && (ms.headD default).optionPrice.isSome &&
          (ms.headD default).price.isSome then
        ("CLOSE CC", (ms.headD default).optionTradePrice)
      else ("BUY CALL", exe.price)
    else ("UNKNOWN", exe.price)
  let act : String :=
    if row.underSize.isSome then (row.action.getD "") ++ " " ++ base.1
    else base.1
  let comm : ℚ := (row.commission.getD 0) + fill.rep.commission
  { row with
    doe := some con.doe, strike := some con.strike,
    optionPrice := some exe.price, optionTradePrice := some base.2,
    acctBal := some acct, optionSize := some optionShares,
    pnlOption := some fill.rep.realizedPNL,
    date := some exe.dateStr, time := some exe.timeStr,
    action := some act, commission := some comm }

/-- `recorder.py` lines 238-312: processing of one fill of a stock-only
trade for `sym`, updating the symbol's `trades` dictionary entry `row`. -/
def processStockFill (yespos : List YesRow) (acct : ℚ) (sym : String)
    (fill : Fill) (row : TradeRow) : TradeRow :=
  let exe := fill.exe
  let thisShares : Int := if exe.side == "SLD" then -exe.shares else exe.shares
  let underShares : Int :=
    match row.underSize with
    | some u => u + thisShares
    | none => thisShares
  let pnlLeg0 : ℚ := row.pnlUnderlyingLeg.getD 0
  let pnlU0 : ℚ := row.pnlUnderlying.getD 0
  let act : String :=
    if row.optionSize.isSome then exe.side ++ " " ++ (row.action.getD "")
    else exe.side
  let comm0 : ℚ := row.commission.getD 0
  let ms := yesMatches yespos sym
  let basis : ℚ × ℚ :=
    if exe.side == "BOT" then
      if ms.length == 0 then (exe.price, exe.price)
      else
        let prevUnder : Int := (ms.headD default).underSize
        if underShares == -prevUnder then
          (listMax (ms.map (fun r => r.legPrice)),
           listMax (ms.map (fun r => r.tradePrice)))
        else (exe.price, exe.price)
    else
      if 1 ≤ ms.length then
        (listMax (ms.map (fun r => r.legPrice)),
         listMax (ms.map (fun r => r.tradePrice)))
      else (exe.price, exe.price)
  let legPrice := basis.1
  let tradePrice := basis.2
  let pnlLeg : ℚ := pnlLeg0 + (exe.price - legPrice) * (exe.shares : ℚ)
  let pnlU : ℚ := pnlU0 + fill.rep.realizedPNL
  let comm : ℚ := comm0 + fill.rep.commission
  { row with
    price := some exe.price, tradePrice := some tradePrice,
    pnlUnderlying := some pnlU, underSize := some underShares,
    action := some act, legPrice := some legPrice,
    pnlUnderlyingLeg := some pnlLeg, acctBal := some acct,
    positionBal := some ((underShares : ℚ) * exe.price),
    commission := some comm,
    date := some exe.dateStr, time := some exe.timeStr }

/-- The contract attached to one fill of a Bag order. -/
inductive BagContract
  | stock
  | opt (con : OptContract)
deriving DecidableEq

/-- One fill (leg execution) of a Bag order. -/
structure BagFill where
  contract : BagContract
  fill : Fill

/-- The loop state of the Bag branch (`recorder.py` lines 313-390): the
mutable `action`, `commission` and `position_bal` variables carried across
the legs of one Bag, plus the `trades` dictionary. -/
structure BagState where
  action : String
  commission : ℚ
  positionBal : ℚ
  trades : Trades

/-- `recorder.py` lines 324-390: processing of one leg fill of a Bag order
with underlying symbol `qsym`. -/
def processBagLeg (yespos : List YesRow) (acct : ℚ) (qsym : String)
    (st : BagState) (bf : BagFill) : BagState :=
  let exe := bf.fill.exe
  match bf.contract with
  | BagContract.opt con =>
    let comm : ℚ :=
      if st.action == "BUY WRITE" then st.commission + bf.fill.rep.commission
      else bf.fill.rep.commission
    let step : String × String × Trades × Int × ℚ :=
      if exe.side == "SLD" then
        let shares := -exe.shares
        if strStartsWith st.action "ROLLOVER" then
          let mysym := qsym ++ "*"
          ("ROLLOVER WRITE", mysym,
           ensureKey st.trades mysym (stubRow qsym), shares, exe.price)
        else (st.action, qsym, st.trades, shares, exe.price)
      else
        if strStartsWith st.action "ROLLOVER" then
          let ms := yesMatches yespos qsym
          let otp :=
            if ms.length == 1 then (ms.headD default).optionTradePrice
            else exe.price
          ("ROLLOVER CLOSE", qsym, st.trades, exe.shares, otp)
        else (st.action, qsym, st.trades, exe.shares, exe.price)
    let act := step.1
    let mysym := step.2.1
    let trades1 := step.2.2.1
    let optionShares := step.2.2.2.1
    let otp := step.2.2.2.2
    let pbal : ℚ := st.positionBal + exe.price * (optionShares : ℚ) * (con.mult : ℚ)
    let row := lookupD trades1 mysym
    let row1 : TradeRow :=
      { row with
        doe := some con.doe, strike := some con.strike,
        optionPrice := some exe.price, optionTradePrice := some otp,
        date := some exe.dateStr, time := some exe.timeStr,
        optionSize := some optionShares,
        pnlOption := some bf.fill.rep.realizedPNL,
        acctBal := some acct, commission := some comm,
        positionBal := some pbal, action := some act }
    { action := act, commission := comm, positionBal := pbal,
      trades := updateAssoc trades1 mysym row1 }
  | BagContract.stock =>
    let comm : ℚ := st.commission + bf.fill.rep.commission
    let pbal : ℚ := st.positionBal + (exe.shares : ℚ) * exe.price
    let basis : ℚ × ℚ :=
      if exe.side == "BOT" then (exe.price, exe.price)
      else
        let ms := yesMatches yespos qsym
        (listMax (ms.map (fun r => r.legPrice)),
         listMax (ms.map (fun r => r.tradePrice)))
    let legPrice := basis.1
    let tradePrice := basis.2
    let pnlLeg : ℚ := (exe.price - legPrice) * (exe.shares : ℚ)
    let row := lookupD st.trades qsym
    let row1 : TradeRow :=
      { row with
        price := some exe.price, tradePrice := some tradePrice,
        date := some exe.dateStr, time := some exe.timeStr,
        legPrice := some legPrice,
        pnlUnderlying := some bf.fill.rep.realizedPNL,
        underSize := some exe.shares,
        pnlUnderlyingLeg := some pnlLeg, action := some st.action,
        positionBal := some pbal, acctBal := some acct,
        commission := some comm }
    { action := st.action, commission := comm, positionBal := pbal,
      trades := updateAssoc st.trades qsym row1 }

/-- `recorder.py` lines 192 and 313-390: processing of a whole Bag order:
the stub entry for the underlying symbol, classification of the combo from
its two legs, then the leg-fill loop. -/
def processBag (yespos : List YesRow) (acct : ℚ) (qsym : String)
    (l0 l1 : ComboLeg) (fills : List BagFill) (trades0 : Trades) : Trades :=
  let trades1 := ensureKey trades0 qsym (stubRow qsym)
  let st0 : BagState :=
    { action := comboAction l0 l1, commission := 0, positionBal := 0,
      trades := trades1 }
  (fills.foldl (processBagLeg yespos acct qsym) st0).trades

/-- A contract held in the end-of-day portfolio snapshot (Bags are not
reported there; each leg is a separate record). -/
inductive PContract
  | stock
  | opt (doe : Nat) (strike : ℚ)
deriving DecidableEq, Inhabited

/-- One record of `ib.portfolio()`. -/
structure PortItem where
  symbol : String
  contract : PContract
  marketPrice : ℚ
  marketValue : ℚ
  position : ℚ
  unrealizedPNL : ℚ
deriving DecidableEq, Inhabited

/-- One entry of the `positions` dictionary (a row of the output positions
ledger).  The stub created from `ib.positions()` sets `action` to OBSERVE
and `position bal` to 0; every other column is absent (`none`). -/
structure PosRow where
  ticker : String
  action : String := "OBSERVE"
  positionBal : ℚ := 0
  price : Option ℚ := none
  tradePrice : Option ℚ := none
  legPrice : Option ℚ := none
  strike : Option ℚ := none
  doe : Option Nat := none
  optionPrice : Option ℚ := none
  optionTradePrice : Option ℚ := none
  underSize : Option ℚ := none
  optionSize : Option ℚ := none
  pnlUnderlying : Option ℚ := none
  pnlUnderlyingLeg : Option ℚ := none
  pnlOption : Option ℚ := none
  delta : Option ℚ := none
  acctBal : Option ℚ := none
deriving DecidableEq, Inhabited

/-- The loop state of the portfolio-annotation pass (`recorder.py` lines
417-537): the `first`/`prevticker` grouping markers, the `action` variable,
the three classification flags, and the basis variables `trade_price`,
`leg_price`, `option_trade_price`.  The basis variables are `Option`-valued:
`none` models a Python local that has not been assigned in the current run
(reading it would raise `NameError`) or holds a NaN table value. -/
structure AnnState where
  first : Bool
  prevticker : String
  action : String
  rolloverFlag : Bool
  sellCCFlag : Bool
  closeCCFlag : Bool
  tradePrice : Option ℚ
  legPrice : Option ℚ
  optionTradePrice : Option ℚ
  positions : List (String × PosRow)
deriving Inhabited

/-- `trades_df.loc[key]`: index lookup of a row of today's trade ledger. -/
def lookupRow (df : Trades) (k : String) : TradeRow := lookupD df k

/-- `recorder.py` lines 424-515: the basis-resolution block run on the
first portfolio record of each ticker group.  `tradesDf` is today's trade
ledger, `yespos` yesterday's.  Only the state fields the matching Python
branch assigns are changed; a branch that assigns nothing leaves the stale
state untouched, exactly as the source does. -/
def resolveFirst (yespos : List YesRow) (tradesDf : Trades) (sym : String)
    (st : AnnState) : AnnState :=
  let st :=
    { st with
      rolloverFlag := false, sellCCFlag := false, closeCCFlag := false }
  let tickerRows := tradesDf.filter (fun p => p.2.ticker == sym)
  let filtCount := tickerRows.length
  let yms := yesMatches yespos sym
  let filt2Count := yms.length
  let nonMatchCount := (yespos.filter (fun r => !(r.ticker == sym))).length
  let trow := lookupRow tradesDf sym
  if filtCount == 1 then
    let act := trow.action.getD ""
    if act == "SELL CC" then
      if filt2Count == 1 then
        { st with
          sellCCFlag := true,
          tradePrice := some (listMax (yms.map (fun r => r.tradePrice))),
          optionTradePrice := trow.optionTradePrice }
      else if nonMatchCount != 0 then
        { st with
          tradePrice := some 0,
          optionTradePrice := trow.optionTradePrice,
          action := "UNMATCHED SELL CC" }
      else { st with action := "ERROR" }
    else if act == "CLOSE CC" then
      if filt2Count == 1 then
        { st with
          closeCCFlag := true,
          tradePrice := some ((yms.headD default).tradePrice),
          optionTradePrice := trow.optionTradePrice }
      else if nonMatchCount != 0 then
        { st with
          tradePrice := some 0, legPrice := some 0,
          optionTradePrice := trow.optionTradePrice,
          action := "UNMATCHED CLOSE CC" }
      else { st with action := "ERROR" }
    else if act == "BUY WRITE" || strStartsWith act "BOT" then
      { st with
        tradePrice := trow.tradePrice, legPrice := trow.legPrice,
        optionTradePrice :=
          ((tickerRows.headD (sym, stubRow sym)).2).optionTradePrice }
    else if act == "SLD" then
      if filt2Count == 1 then
        { st with
          tradePrice := some (listMax (yms.map (fun r => r.tradePrice))),
          legPrice := trow.legPrice,
          optionTradePrice := (yms.headD default).optionTradePrice }
      else st
    else st
  else if filtCount == 0 then
    if filt2Count == 1 then
      { st with
        tradePrice := some (listMax (yms.map (fun r => r.tradePrice))),
        legPrice := some (listMax (yms.map (fun r => r.legPrice))),
        optionTradePrice :=
          some (listMax (yms.map (fun r => r.optionTradePrice))) }
    else if filt2Count == 0 then
      { st with
        tradePrice := some 0, legPrice := some 0,
        optionTradePrice := some 0 }
    else
      { st with tradePrice := some (-9999), legPrice := some (-9999) }
  else if filtCount == 2 then
    { st with
      tradePrice := some (listMax (yms.map (fun r => r.tradePrice))),
      rolloverFlag := true,
      optionTradePrice := (lookupRow tradesDf (sym ++ "*")).optionTradePrice }
  else
    { st with tradePrice := some (-9999), legPrice := some (-9999) }

/-- `recorder.py` lines 419-537: one iteration of the portfolio loop.
`getDelta` embeds the external delta-lookup collaborator.  The basis
variables read while building a row are taken from the loop state; `none`
there marks a value the source never assigned for this ticker. -/
def annStep (yespos : List YesRow) (tradesDf : Trades) (acct : ℚ)
    (getDelta : String → Nat → ℚ → ℚ) (st : AnnState) (ppp : PortItem) :
    AnnState :=
  let st :=
    if ppp.symbol != st.prevticker then
      { st with first := true, action := "OBSERVE" }
    else st
  let st :=
    if st.first then
      let st1 := resolveFirst yespos tradesDf ppp.symbol st
      { st1 with prevticker := ppp.symbol, first := false }
    else st
  match ppp.contract with
  | PContract.stock =>
    let legP : Option ℚ :=
      if st.rolloverFlag || st.sellCCFlag || st.closeCCFlag then
        some ppp.marketPrice
      else st.legPrice
    let st := { st with legPrice := legP }
    let prev := lookupD st.positions ppp.symbol
    let bal : ℚ := ppp.marketValue + prev.positionBal
    let row : PosRow :=
      { prev with
        price := some ppp.marketPrice, tradePrice := st.tradePrice,
        legPrice := st.legPrice, underSize := some ppp.position,
        positionBal := bal, acctBal := some acct, action := st.action,
        pnlUnderlying := some ppp.unrealizedPNL,
        pnlUnderlyingLeg :=
          st.legPrice.map (fun lp => ppp.position * (ppp.marketPrice - lp)) }
    { st with positions := updateAssoc st.positions ppp.symbol row }
  | PContract.opt doe strike =>
    let prev := lookupD st.positions ppp.symbol
    let bal : ℚ := prev.positionBal + ppp.marketValue
    let row : PosRow :=
      { prev with
        doe := some doe, strike := some strike,
        optionPrice := some ppp.marketPrice,
        optionTradePrice := st.optionTradePrice, positionBal := bal,
        action := st.action, optionSize := some ppp.position,
        pnlOption := some ppp.unrealizedPNL,
        delta := some (getDelta ppp.symbol doe strike) }
    { st with positions := updateAssoc st.positions ppp.symbol row }

/-- `recorder.py` lines 417-537: the whole portfolio-annotation pass, run
over the snapshot `port` starting from the stub `positions0` built from
`ib.positions()`. -/
def annotate (yespos : List YesRow) (tradesDf : Trades) (acct : ℚ)
    (getDelta : String → Nat → ℚ → ℚ) (port : List PortItem)
    (positions0 : List (String × PosRow)) : List (String × PosRow) :=
  let st0 : AnnState :=
    { first := true, prevticker := "not a real ticker", action := "OBSERVE",
      rolloverFlag := false, sellCCFlag := false, closeCCFlag := false,
      tradePrice := none, legPrice := none, optionTradePrice := none,
      positions := positions0 }
  (port.foldl (annStep yespos tradesDf acct getDelta) st0).positions

/-- `strike <= price` on a portfolio row, with pandas NaN semantics: a
comparison involving a missing value is false. -/
def strikeLEprice (row : PosRow) : Bool :=
  match row.strike, row.price with
  | some s, some p => decide (s ≤ p)
  | _, _ => false

/-- `recorder.py` lines 554-561: the per-row expiration adjustment.  `doe`
is the expiration as `yyyymmdd`; `today` the run date in the same form. -/
def adjustRow (today : Nat) (row : PosRow) : PosRow :=
  match row.doe with
  | none => row
  | some d =>
    if d ≤ today then
      if strikeLEprice row then { row with action := "Called Away" }
      else { row with action := "Expire CC" }
    else row

/-- `recorder.py` lines 550-561: the post-close adjustment, applied to the
positions ledger only when the run executes at or after 16:00. -/
def postCloseAdjust (hour : Nat) (today : Nat) (rows : List PosRow) :
    List PosRow :=
  if 16 ≤ hour then rows.map (adjustRow today) else rows

/-! Concrete instances used to evaluate the embedded code at specific
inputs. -/

/-- A stock sale fill: SLD 100 shares at 50. -/
def exSellFill : Fill :=
  { exe := { side := "SLD", shares := 100, price := 50,
             dateStr := "2025-10-10", timeStr := "10:00" },
    rep := { commission := 1, realizedPNL := 5 } }

/-- An option contract expiring 2025-10-17 at strike 100. -/
def exCon : OptContract := { doe := 20251017, strike := 100 }

/-- First partial fill of an option leg: realized P&L 1, commission 1. -/
def exOptFill1 : Fill :=
  { exe := { side := "SLD", shares := 1, price := 3, dateStr := "2025-10-10",
             timeStr := "10:00" },
    rep := { commission := 1, realizedPNL := 1 } }

/-- Second partial fill of the same option leg: realized P&L 2,
commission 1/2. -/
def exOptFill2 : Fill :=
  { exe := { side := "SLD", shares := 1, price := 3, dateStr := "2025-10-10",
             timeStr := "10:01" },
    rep := { commission := 1/2, realizedPNL := 2 } }

/-- A stock purchase fill: BOT 100 shares at 50. -/
def exBuy50 : Fill :=
  { exe := { side := "BOT", shares := 100, price := 50,
             dateStr := "2025-10-10", timeStr := "10:00" },
    rep := { commission := 0, realizedPNL := 0 } }

/-- A second stock purchase fill: BOT 100 shares at 60. -/
def exBuy60 : Fill :=
  { exe := { side := "BOT", shares := 100, price := 60,
             dateStr := "2025-10-10", timeStr := "10:05" },
    rep := { commission := 0, realizedPNL := 0 } }

/-- An option write fill at 10:01, for the leg-order experiment. -/
def exOptLeg : Fill :=
  { exe := { side := "SLD", shares := 1, price := 2, dateStr := "2025-10-10",
             timeStr := "10:01" },
    rep := { commission := 1/2, realizedPNL := 0 } }

/-- Yesterday's ledger row for XYZ: entry prices 48/47, option entry 4,
both option price and underlying price populated. -/
def yXYZ : YesRow :=
  { ticker := "XYZ", tradePrice := 48, legPrice := 47,
    optionTradePrice := 4, optionPrice := some 3, price := some 50,
    underSize := 100 }

/-- Rollover buy-back leg contract (near expiration). -/
def conClose : OptContract := { doe := 20251017, strike := 100 }

/-- Rollover new-write leg contract (later expiration). -/
def conWrite : OptContract := { doe := 20251121, strike := 105 }

/-- Rollover buy-back fill: BOT 1 contract at 3. -/
def fillClose : Fill :=
  { exe := { side := "BOT", shares := 1, price := 3, dateStr := "2025-10-10",
             timeStr := "15:00" },
    rep := { commission := 1, realizedPNL := -2 } }

/-- Rollover new-write fill: SLD 1 contract at 5/2. -/
def fillWrite : Fill :=
  { exe := { side := "SLD", shares := 1, price := 5/2,
             dateStr := "2025-10-10", timeStr := "15:00" },
    rep := { commission := 1, realizedPNL := 0 } }

/-- Combo leg metadata: ratio-1 BUY leg. -/
def legBuy : ComboLeg := { ratioVal := 1, action := "BUY" }

/-- Combo leg metadata: ratio-1 SELL leg. -/
def legSell : ComboLeg := { ratioVal := 1, action := "SELL" }

/-- Option buy-back fill closing a covered call: BOT 1 contract at 7/2. -/
def fillCC : Fill :=
  { exe := { side := "BOT", shares := 1, price := 7/2,
             dateStr := "2025-10-10", timeStr := "11:00" },
    rep := { commission := 1, realizedPNL := 10 } }

/-- A fresh annotation-loop state, as at the top of the portfolio loop. -/
def annInit : AnnState :=
  { first := true, prevticker := "not a real ticker", action := "OBSERVE",
    rolloverFlag := false, sellCCFlag := false, closeCCFlag := false,
    tradePrice := none, legPrice := none, optionTradePrice := none,
    positions := [] }

/-- Today's trade-ledger row for AAA: a one-sided SLD with no matching
yesterday row. -/
def rowSLD : TradeRow :=
  { ticker := "AAA", action := some "SLD", legPrice := some 42,
    price := some 50, tradePrice := some 50 }

/-- Yesterday's ledger row for CCC (trade price 7). -/
def yCCC : YesRow :=
  { ticker := "CCC", tradePrice := 7, legPrice := 7, optionTradePrice := 7 }

/-- Portfolio snapshot record: stock position in AAA. -/
def itemAAA : PortItem :=
  { symbol := "AAA", contract := PContract.stock, marketPrice := 49,
    marketValue := 4900, position := 100, unrealizedPNL := -100 }

/-- Portfolio snapshot record: stock position in CCC. -/
def itemCCC : PortItem :=
  { symbol := "CCC", contract := PContract.stock, marketPrice := 10,
    marketValue := 1000, position := 100, unrealizedPNL := 0 }

/-- The stub `positions` dictionary for the AAA/CCC snapshot. -/
def posStubs : List (String × PosRow) :=
  [("AAA", { ticker := "AAA" }), ("CCC", { ticker := "CCC" })]

/-- A delta-lookup collaborator that always returns 0. -/
def gdZero : String → Nat → ℚ → ℚ := fun _ _ _ => 0

/-- A positions-ledger row holding an expiring option: strike 100,
underlying price 105, expiration 2025-10-10. -/
def prow : PosRow :=
  { ticker := "XYZ", strike := some 100, price := some 105,
    doe := some 20251010 }

end TWS

namespace TWS

/-- C6: For every two-leg Bag order, classification follows this priority as
a pure function of leg metadata: if both legs have ratio 1 and their actions
differ the result is ROLLOVER; otherwise, if either leg has ratio 100 and
action BUY the result is BUY WRITE; otherwise the unknown label. -/
theorem comboAction_priority (l0 l1 : ComboLeg) :
    comboAction l0 l1 =
      if l0.ratioVal = 1 ∧ l1.ratioVal = 1 ∧ l0.action ≠ l1.action then
        "ROLLOVER"
      else if (l0.ratioVal = 100 ∧ l0.action = "BUY") ∨
          (l1.ratioVal = 100 ∧ l1.action = "BUY") then
        "BUY WRITE"
      else
        "Unknown" := by
  unfold comboAction
  by_cases h0 : l0.ratioVal = 1 ∧ l1.ratioVal = 1 ∧ l0.action ≠ l1.action
  · simp [h0.1, h0.2.1, h0.2.2, bne_iff_ne]
  · rw [if_neg h0]
    by_cases h1 : (l0.ratioVal = 100 ∧ l0.action = "BUY") ∨
        (l1.ratioVal = 100 ∧ l1.action = "BUY")
    · rw [if_pos h1]
      have hfirst : ¬ (l0.ratioVal == 1 && l1.ratioVal == 1 &&
          l0.action != l1.action) = true := by
        intro hcon
        simp only [Bool.and_eq_true, beq_iff_eq, bne_iff_ne] at hcon
        exact h0 ⟨hcon.1.1, hcon.1.2, hcon.2⟩
      rw [if_neg hfirst, if_pos]
      simp only [Bool.or_eq_true, Bool.and_eq_true, beq_iff_eq]
      rcases h1 with h | h
      · exact Or.inl ⟨h.2, h.1⟩
      · exact Or.inr ⟨h.2, h.1⟩
    · rw [if_neg h1]
      have hfirst : ¬ (l0.ratioVal == 1 && l1.ratioVal == 1 &&
          l0.action != l1.action) = true := by
        intro hcon
        simp only [Bool.and_eq_true, beq_iff_eq, bne_iff_ne] at hcon
        exact h0 ⟨hcon.1.1, hcon.1.2, hcon.2⟩
      have hsecond : ¬ ((l0.action == "BUY" && l0.ratioVal == 100) ||
          (l1.action == "BUY" && l1.ratioVal == 100)) = true := by
        intro hcon
        simp only [Bool.or_eq_true, Bool.and_eq_true, beq_iff_eq] at hcon
        rcases hcon with h | h
        · exact h1 (Or.inl ⟨h.2, h.1⟩)
        · exact h1 (Or.inr ⟨h.2, h.1⟩)
      rw [if_neg hfirst, if_neg hsecond]

/-- C9: the recovery branch of the source reads the hard-coded pickle
`./data/trades-2023-07-20.pkl` instead of the run date's persisted fill-set
`./data/trades-<date>.pkl`; evaluated here at the run date 2025-10-12.  The
second conjunct checks the mode priority: when both normal (read) and
recovery modes are requested, recovery is disabled and no file is read. -/
theorem recovery_reads_fixed_date_file :
    recoveryReadFile false true = some "./data/trades-2023-07-20.pkl" ∧
    todayTradesFile "2025-10-12" = "./data/trades-2025-10-12.pkl" ∧
    recoveryReadFile false true ≠ some (todayTradesFile "2025-10-12") ∧
    recoveryReadFile true true = none ∧
    effectiveFlags true true = (true, false) := by
  refine ⟨rfl, rfl, ?_, rfl, rfl⟩
  intro h
  simp only [recoveryReadFile, effectiveFlags, todayTradesFile] at h
  exact absurd (Option.some.inj h) (by decide)

/-- Helper: updating an association list at a key that is present makes the
subsequent lookup return the new value. -/
theorem lookupD_updateAssoc {α : Type} [Inhabited α]
    (l : List (String × α)) (k : String) (v : α)
    (h : (l.find? (fun p => p.1 == k)).isSome = true) :
    lookupD (updateAssoc l k v) k = v := by
  induction l with
  | nil => simp at h
  | cons p t ih =>
    by_cases hpe : p.1 = k
    · simp [lookupD, updateAssoc, hpe]
    · have hpb : ¬ (((p.1 == k) : Bool) = true) := by simpa using hpe
      have hstep : List.find? (fun q => q.1 == k) (p :: t)
          = List.find? (fun q => q.1 == k) t :=
        List.find?_cons_of_neg t hpb
      rw [hstep] at h
      have ht := ih h
      simp only [lookupD, updateAssoc, List.map_cons] at ht ⊢
      rw [if_neg hpb]
      have hstep2 : List.find? (fun q => q.1 == k)
            (p :: List.map (fun q => if q.1 == k then (k, v) else q) t)
          = List.find? (fun q => q.1 == k)
            (List.map (fun q => if q.1 == k then (k, v) else q) t) :=
        List.find?_cons_of_neg _ hpb
      rw [hstep2]
      exact ht

/-- C1 counterexample: a stock SELL fill (SLD 100 at 50) for a ticker with
zero matching rows in yesterday's ledger is recorded with trade price and
leg price equal to today's execution price 50 (not zero) and with the plain
action label SLD, which does not carry an ERROR prefix. -/
theorem stock_sale_no_prior_cx :
    (processStockFill [] 1000 "XYZ" exSellFill (stubRow "XYZ")).tradePrice
      = some 50 ∧
    (processStockFill [] 1000 "XYZ" exSellFill (stubRow "XYZ")).legPrice
      = some 50 ∧
    (processStockFill [] 1000 "XYZ" exSellFill (stubRow "XYZ")).action
      = some "SLD" ∧
    strStartsWith "SLD" "ERROR" = false := by
  refine ⟨by decide, by decide, by decide, by decide⟩

/-- C1 (amended): for every stock SELL fill whose ticker has zero matching
rows in yesterday's ledger, the trade pass silently resolves both basis
fields from today's execution price and records the raw side SLD as the
action label; no ERROR-prefixed label is produced. -/
theorem stock_sale_no_prior_uses_exec_price
    (yespos : List YesRow) (acct : ℚ) (sym : String) (f : Fill)
    (row : TradeRow)
    (hside : f.exe.side = "SLD")
    (hmatch : yesMatches yespos sym = [])
    (hopt : row.optionSize = none) :
    (processStockFill yespos acct sym f row).tradePrice = some f.exe.price ∧
    (processStockFill yespos acct sym f row).legPrice = some f.exe.price ∧
    (processStockFill yespos acct sym f row).action = some "SLD" := by
  have hb : (f.exe.side == "BOT") = false := by rw [hside]; decide
  have hs : (f.exe.side == "SLD") = true := by rw [hside]; decide
  unfold processStockFill
  rw [hmatch]
  simp [hb, hs, hopt, hside]

/-- C1 witness: the amended statement evaluated on the concrete SLD fill. -/
theorem stock_sale_no_prior_uses_exec_price_witness :
    (processStockFill [] 1000 "XYZ" exSellFill (stubRow "XYZ")).tradePrice
      = some exSellFill.exe.price ∧
    (processStockFill [] 1000 "XYZ" exSellFill (stubRow "XYZ")).legPrice
      = some exSellFill.exe.price ∧
    (processStockFill [] 1000 "XYZ" exSellFill (stubRow "XYZ")).action
      = some "SLD" :=
  stock_sale_no_prior_uses_exec_price [] 1000 "XYZ" exSellFill (stubRow "XYZ")
    rfl rfl rfl

/-- C3 counterexample: two fills of one option leg with realized P&L 1 and
2 leave the merged row's realized option P&L at 2, the last fill's value,
not the sum 3 — while the commissions 1 and 1/2 are correctly summed. -/
theorem option_pnl_overwritten_cx :
    (processOptionFill [] 1000 exCon "XYZ" exOptFill2
        (processOptionFill [] 1000 exCon "XYZ" exOptFill1
          (stubRow "XYZ"))).pnlOption ≠ some (1 + 2) ∧
    (processOptionFill [] 1000 exCon "XYZ" exOptFill2
        (processOptionFill [] 1000 exCon "XYZ" exOptFill1
          (stubRow "XYZ"))).pnlOption = some 2 ∧
    (processOptionFill [] 1000 exCon "XYZ" exOptFill2
        (processOptionFill [] 1000 exCon "XYZ" exOptFill1
          (stubRow "XYZ"))).commission = some (1 + 1/2) := by
  refine ⟨?_, by decide, ?_⟩ <;>
    norm_num [processOptionFill, exOptFill1, exOptFill2, exCon, stubRow,
      yesMatches]

/-- C3 (amended): a fill always adds its commission to the accumulated
commission, for stock and option legs alike, and a stock fill adds its
realized P&L to the accumulated underlying P&L; but an option fill
overwrites the row's realized option P&L with its own value instead of
adding it. -/
theorem fill_aggregation_per_leg
    (yespos : List YesRow) (acct : ℚ) (sym : String) (con : OptContract)
    (f g : Fill) (row rowO : TradeRow) (c0 p0 c1 : ℚ)
    (hc : row.commission = some c0)
    (hp : row.pnlUnderlying = some p0)
    (hcO : rowO.commission = some c1) :
    (processStockFill yespos acct sym f row).commission
      = some (c0 + f.rep.commission) ∧
    (processStockFill yespos acct sym f row).pnlUnderlying
      = some (p0 + f.rep.realizedPNL) ∧
    (processOptionFill yespos acct con sym g rowO).commission
      = some (c1 + g.rep.commission) ∧
    (processOptionFill yespos acct con sym g rowO).pnlOption
      = some g.rep.realizedPNL := by
  refine ⟨?_, ?_, ?_, ?_⟩
  · unfold processStockFill; simp [hc]
  · unfold processStockFill; simp [hp]
  · unfold processOptionFill; simp [hcO]
  · unfold processOptionFill; simp

/-- C3 witness: the amended aggregation statement at concrete fills. -/
theorem fill_aggregation_per_leg_witness :
    (processStockFill [] 1000 "XYZ" exBuy60
        { ticker := "XYZ", commission := some 1,
          pnlUnderlying := some 2 }).commission
      = some (1 + exBuy60.rep.commission) ∧
    (processStockFill [] 1000 "XYZ" exBuy60
        { ticker := "XYZ", commission := some 1,
          pnlUnderlying := some 2 }).pnlUnderlying
      = some (2 + exBuy60.rep.realizedPNL) ∧
    (processOptionFill [] 1000 exCon "XYZ" exOptFill2
        { ticker := "XYZ", commission := some 1 }).commission
      = some (1 + exOptFill2.rep.commission) ∧
    (processOptionFill [] 1000 exCon "XYZ" exOptFill2
        { ticker := "XYZ", commission := some 1 }).pnlOption
      = some exOptFill2.rep.realizedPNL :=
  fill_aggregation_per_leg [] 1000 "XYZ" exCon exBuy60 exOptFill2
    { ticker := "XYZ", commission := some 1, pnlUnderlying := some 2 }
    { ticker := "XYZ", commission := some 1 } 1 2 1 rfl rfl rfl

/-- C4 counterexample: after two stock purchase fills of 100 shares at 50
and then 100 shares at 60 post to one row, the row's position bal is
200 * 60 = 12000, the accumulated share count times the latest execution
price, not the sum 100*50 + 100*60 = 11000 of the dollar values of the two
legs — the second fill overwrote the first leg's contribution. -/
theorem position_bal_overwritten_cx :
    (processStockFill [] 1000 "XYZ" exBuy60
        (processStockFill [] 1000 "XYZ" exBuy50
          (stubRow "XYZ"))).positionBal = some 12000 ∧
    (processStockFill [] 1000 "XYZ" exBuy60
        (processStockFill [] 1000 "XYZ" exBuy50
          (stubRow "XYZ"))).positionBal
      ≠ some ((100 : ℚ) * 50 + (100 : ℚ) * 60) := by
  constructor <;>
  · norm_num [processStockFill, exBuy50, exBuy60, stubRow, yesMatches,
      listMax]
    norm_num [show (("BOT" : String) = "SLD") = False by simp]

/-- C4 (amended): after a stock fill posts to a trade-ledger row, the row's
position bal is overwritten with the accumulated share count times this
fill's execution price (not the sum of the legs' dollar values); in the
portfolio pass, by contrast, an option leg adds its market value to the
row's existing position bal, never overwriting it. -/
theorem position_bal_semantics
    (yespos : List YesRow) (acct : ℚ) (sym : String) (f : Fill)
    (row : TradeRow) (u : Int)
    (tradesDf : Trades) (gd : String → Nat → ℚ → ℚ) (st : AnnState)
    (ppp : PortItem) (d : Nat) (k : ℚ)
    (hu : row.underSize = some u) (hside : f.exe.side = "BOT")
    (hC : ppp.contract = PContract.opt d k)
    (hprev : ppp.symbol = st.prevticker) (hfirst : st.first = false)
    (hk : (st.positions.find? (fun p => p.1 == ppp.symbol)).isSome = true) :
    (processStockFill yespos acct sym f row).positionBal
      = some (((u + f.exe.shares : ℤ) : ℚ) * f.exe.price) ∧
    (lookupD (annStep yespos tradesDf acct gd st ppp).positions
        ppp.symbol).positionBal
      = (lookupD st.positions ppp.symbol).positionBal + ppp.marketValue := by
  constructor
  · have hb : (f.exe.side == "SLD") = false := by rw [hside]; decide
    unfold processStockFill
    simp [hu, hb]
  · have hbne : (ppp.symbol != st.prevticker) = false := by
      rw [hprev]; simp
    unfold annStep
    rw [hbne]
    simp only [Bool.false_eq_true, if_false, hfirst, hC]
    rw [lookupD_updateAssoc _ _ _ hk]

/-- C4 witness: the amended statement at a concrete stock fill (100 shares
held, BOT 100 at 60) and a concrete option portfolio record. -/
theorem position_bal_semantics_witness :
    (processStockFill [] 1000 "XYZ" exBuy60
        { ticker := "XYZ", underSize := some 100 }).positionBal
      = some (((100 + exBuy60.exe.shares : ℤ) : ℚ) * exBuy60.exe.price) ∧
    (lookupD (annStep [] [] 1000 gdZero
        { first := false, prevticker := "AAA", action := "OBSERVE",
          rolloverFlag := false, sellCCFlag := false, closeCCFlag := false,
          tradePrice := none, legPrice := none, optionTradePrice := none,
          positions := [("AAA", { ticker := "AAA", positionBal := 300 })] }
        { symbol := "AAA", contract := PContract.opt 20251017 100,
          marketPrice := 2, marketValue := 200, position := -1,
          unrealizedPNL := 0 }).positions "AAA").positionBal
      = (lookupD
          ([("AAA", { ticker := "AAA", positionBal := 300 })] :
            List (String × PosRow)) "AAA").positionBal + 200 :=
  position_bal_semantics [] 1000 "XYZ" exBuy60
    { ticker := "XYZ", underSize := some 100 } 100 [] gdZero
    { first := false, prevticker := "AAA", action := "OBSERVE",
      rolloverFlag := false, sellCCFlag := false, closeCCFlag := false,
      tradePrice := none, legPrice := none, optionTradePrice := none,
      positions := [("AAA", { ticker := "AAA", positionBal := 300 })] }
    { symbol := "AAA", contract := PContract.opt 20251017 100,
      marketPrice := 2, marketValue := 200, position := -1,
      unrealizedPNL := 0 } 20251017 100 rfl rfl rfl rfl rfl (by decide)

/-- C5 counterexample: a stock leg filled at 10:00 and an option leg filled
at 10:01 produce different merged rows depending on processing order: the
row's time field records the last-processed leg's execution time, so the
two orders do not yield the same merged row. -/
theorem leg_order_time_cx :
    processOptionFill [] 1000 exCon "XYZ" exOptLeg
        (processStockFill [] 1000 "XYZ" exBuy50 (stubRow "XYZ"))
      ≠ processStockFill [] 1000 "XYZ" exBuy50
          (processOptionFill [] 1000 exCon "XYZ" exOptLeg (stubRow "XYZ")) ∧
    (processOptionFill [] 1000 exCon "XYZ" exOptLeg
        (processStockFill [] 1000 "XYZ" exBuy50 (stubRow "XYZ"))).time
      = some "10:01" ∧
    (processStockFill [] 1000 "XYZ" exBuy50
        (processOptionFill [] 1000 exCon "XYZ" exOptLeg
          (stubRow "XYZ"))).time = some "10:00" := by
  refine ⟨fun h => ?_, by decide, by decide⟩
  exact absurd (congrArg TradeRow.time h) (by decide)

/-- C5 (amended): processing a ticker's stock leg and option leg in either
order yields the same merged ledger row except for the date and time
fields, which record the last-processed leg's execution timestamp; in
particular the later leg never blanks out the earlier leg's fields: the
stock leg's price and the option leg's price both survive in the merged
row. -/
theorem leg_order_commutes
    (yespos : List YesRow) (acct : ℚ) (con : OptContract) (sym : String)
    (fs fo : Fill) :
    processOptionFill yespos acct con sym fo
        (processStockFill yespos acct sym fs (stubRow sym))
      = { processStockFill yespos acct sym fs
            (processOptionFill yespos acct con sym fo (stubRow sym)) with
          date := some fo.exe.dateStr, time := some fo.exe.timeStr } ∧
    (processOptionFill yespos acct con sym fo
        (processStockFill yespos acct sym fs (stubRow sym))).price
      = some fs.exe.price ∧
    (processOptionFill yespos acct con sym fo
        (processStockFill yespos acct sym fs (stubRow sym))).optionPrice
      = some fo.exe.price := by
  refine ⟨?_, rfl, rfl⟩
  unfold processOptionFill processStockFill stubRow
  simp only [Option.isSome_some, Option.getD_some, Option.isSome_none,
    Option.getD_none, Bool.false_eq_true, if_false, if_true]
  congr 1
  ring_nf

/-- C2: a Bag order classified ROLLOVER with a buy-back option leg and a
new-write option leg (processed in either leg order) yields exactly two
trade-ledger rows: the ticker row with action ROLLOVER CLOSE whose option
trade price is yesterday's entry value for the ticker, and the synthetic
ticker* row with action ROLLOVER WRITE whose option trade price is the new
write leg's execution price. -/
theorem rollover_two_rows
    (yespos : List YesRow) (acct : ℚ) (qsym : String) (l0 l1 : ComboLeg)
    (y : YesRow) (conB conW : OptContract) (fb fw : Fill)
    (fills : List BagFill)
    (hact : comboAction l0 l1 = "ROLLOVER")
    (hy : yesMatches yespos qsym = [y])
    (hb : fb.exe.side = "BOT") (hw : fw.exe.side = "SLD")
    (hf : fills = [⟨BagContract.opt conB, fb⟩, ⟨BagContract.opt conW, fw⟩] ∨
        fills = [⟨BagContract.opt conW, fw⟩, ⟨BagContract.opt conB, fb⟩]) :
    (processBag yespos acct qsym l0 l1 fills []).length = 2 ∧
    (lookupD (processBag yespos acct qsym l0 l1 fills []) qsym).action
      = some "ROLLOVER CLOSE" ∧
    (lookupD (processBag yespos acct qsym l0 l1 fills [])
        qsym).optionTradePrice = some y.optionTradePrice ∧
    (lookupD (processBag yespos acct qsym l0 l1 fills [])
        (qsym ++ "*")).action = some "ROLLOVER WRITE" ∧
    (lookupD (processBag yespos acct qsym l0 l1 fills [])
        (qsym ++ "*")).optionTradePrice = some fw.exe.price := by
  have hneP : ¬ (qsym = qsym ++ "*") := by
    intro h
    have hlen := congrArg String.length h
    rw [String.length_append] at hlen
    have hone : ("*" : String).length = 1 := rfl
    omega
  have hne : (qsym == qsym ++ "*") = false := beq_eq_false_iff_ne.mpr hneP
  have hne2P : ¬ (qsym ++ "*" = qsym) := fun h => hneP h.symm
  have hne2 : (qsym ++ "*" == qsym) = false := beq_eq_false_iff_ne.mpr hne2P
  have hwS : (fw.exe.side == "SLD") = true := by rw [hw]; decide
  have hbS : (fb.exe.side == "SLD") = false := by rw [hb]; decide
  have h1 : strStartsWith "ROLLOVER" "ROLLOVER" = true := by decide
  have h2 : strStartsWith "ROLLOVER CLOSE" "ROLLOVER" = true := by decide
  have h3 : strStartsWith "ROLLOVER WRITE" "ROLLOVER" = true := by decide
  have h4 : ("ROLLOVER" == "BUY WRITE") = false := by decide
  have h5 : ("ROLLOVER CLOSE" == "BUY WRITE") = false := by decide
  have h6 : ("ROLLOVER WRITE" == "BUY WRITE") = false := by decide
  rcases hf with hf | hf <;> subst hf <;>
    simp [processBag, processBagLeg, ensureKey, updateAssoc, lookupD,
      stubRow, hact, hy, hne, hne2, hneP, hne2P, hwS, hbS, h1, h2, h3, h4,
      h5, h6]

/-- C2 witness: the rollover statement at the concrete scenario (buy-back
BOT 1 at 3, new write SLD 1 at 5/2, yesterday's option entry 4). -/
theorem rollover_two_rows_witness :
    (processBag [yXYZ] 1000 "XYZ" legBuy legSell
        [⟨BagContract.opt conClose, fillClose⟩,
         ⟨BagContract.opt conWrite, fillWrite⟩] []).length = 2 ∧
    (lookupD (processBag [yXYZ] 1000 "XYZ" legBuy legSell
        [⟨BagContract.opt conClose, fillClose⟩,
         ⟨BagContract.opt conWrite, fillWrite⟩] []) "XYZ").action
      = some "ROLLOVER CLOSE" ∧
    (lookupD (processBag [yXYZ] 1000 "XYZ" legBuy legSell
        [⟨BagContract.opt conClose, fillClose⟩,
         ⟨BagContract.opt conWrite, fillWrite⟩] []) "XYZ").optionTradePrice
      = some yXYZ.optionTradePrice ∧
    (lookupD (processBag [yXYZ] 1000 "XYZ" legBuy legSell
        [⟨BagContract.opt conClose, fillClose⟩,
         ⟨BagContract.opt conWrite, fillWrite⟩] []) ("XYZ" ++ "*")).action
      = some "ROLLOVER WRITE" ∧
    (lookupD (processBag [yXYZ] 1000 "XYZ" legBuy legSell
        [⟨BagContract.opt conClose, fillClose⟩,
         ⟨BagContract.opt conWrite, fillWrite⟩] [])
        ("XYZ" ++ "*")).optionTradePrice = some fillWrite.exe.price :=
  rollover_two_rows [yXYZ] 1000 "XYZ" legBuy legSell yXYZ conClose conWrite
    fillClose fillWrite
    [⟨BagContract.opt conClose, fillClose⟩,
     ⟨BagContract.opt conWrite, fillWrite⟩]
    (by decide) (by decide) rfl rfl (Or.inl rfl)

/-- C7: a single option BUY fill whose ticker matches exactly one
yesterday's-ledger row with both option price and underlying price
populated is classified CLOSE CC with option trade price taken from
yesterday's entry; the portfolio pass then resolves the ticker's trade
price from yesterday's trade price and keeps yesterday's option trade
price — today's execution price is used for neither basis field. -/
theorem close_cc_basis_round_trip
    (yespos : List YesRow) (acct : ℚ) (con : OptContract) (sym : String)
    (y : YesRow) (f : Fill) (st : AnnState)
    (hy : yesMatches yespos sym = [y])
    (hop : y.optionPrice.isSome = true) (hup : y.price.isSome = true)
    (hside : f.exe.side = "BOT") :
    (processOptionFill yespos acct con sym f (stubRow sym)).action
      = some "CLOSE CC" ∧
    (processOptionFill yespos acct con sym f (stubRow sym)).optionTradePrice
      = some y.optionTradePrice ∧
    (resolveFirst yespos
        [(sym, processOptionFill yespos acct con sym f (stubRow sym))] sym
        st).tradePrice = some y.tradePrice ∧
    (resolveFirst yespos
        [(sym, processOptionFill yespos acct con sym f (stubRow sym))] sym
        st).optionTradePrice = some y.optionTradePrice := by
  have hs : (f.exe.side == "SLD") = false := by rw [hside]; decide
  have hbb : (f.exe.side == "BOT") = true := by rw [hside]; decide
  have hrow : processOptionFill yespos acct con sym f (stubRow sym)
      = { stubRow sym with
          doe := some con.doe, strike := some con.strike,
          optionPrice := some f.exe.price,
          optionTradePrice := some y.optionTradePrice,
          acctBal := some acct, optionSize := some f.exe.shares,
          pnlOption := some f.rep.realizedPNL,
          date := some f.exe.dateStr, time := some f.exe.timeStr,
          action := some "CLOSE CC",
          commission := some (0 + f.rep.commission) } := by
    unfold processOptionFill
    simp [hs, hbb, hy, hop, hup, stubRow]
  refine ⟨by rw [hrow], by rw [hrow], ?_, ?_⟩ <;>
  · rw [hrow]
    unfold resolveFirst
    simp [stubRow, lookupRow, lookupD, hy]

/-- C7 witness: the covered-call close round trip at the concrete
yesterday's row (trade price 48, option entry 4) and today's BOT fill at
7/2. -/
theorem close_cc_basis_round_trip_witness :
    (processOptionFill [yXYZ] 1000 exCon "XYZ" fillCC
        (stubRow "XYZ")).action = some "CLOSE CC" ∧
    (processOptionFill [yXYZ] 1000 exCon "XYZ" fillCC
        (stubRow "XYZ")).optionTradePrice = some yXYZ.optionTradePrice ∧
    (resolveFirst [yXYZ]
        [("XYZ", processOptionFill [yXYZ] 1000 exCon "XYZ" fillCC
          (stubRow "XYZ"))] "XYZ" annInit).tradePrice
      = some yXYZ.tradePrice ∧
    (resolveFirst [yXYZ]
        [("XYZ", processOptionFill [yXYZ] 1000 exCon "XYZ" fillCC
          (stubRow "XYZ"))] "XYZ" annInit).optionTradePrice
      = some yXYZ.optionTradePrice :=
  close_cc_basis_round_trip [yXYZ] 1000 exCon "XYZ" yXYZ fillCC annInit
    (by decide) rfl rfl rfl

end TWS

namespace TWS

/-- C8: when and only when the run executes at or after the 16:00 close,
each positions-ledger row whose option expiration is on or before today has
its action set to Called Away when strike is at most the current underlying
price and to Expire CC otherwise; rows with later expirations or without an
option, and every row of a pre-close run, keep their action. -/
theorem post_close_assignment
    (hour today : Nat) (rows : List PosRow) (row : PosRow) :
    (hour < 16 → postCloseAdjust hour today rows = rows) ∧
    (16 ≤ hour → postCloseAdjust hour today rows
      = rows.map (adjustRow today)) ∧
    (∀ d s p, row.doe = some d → d ≤ today → row.strike = some s →
      row.price = some p →
      adjustRow today row
        = { row with
            action := if s ≤ p then "Called Away" else "Expire CC" }) ∧
    (∀ d, row.doe = some d → today < d → adjustRow today row = row) ∧
    (row.doe = none → adjustRow today row = row) := by
  refine ⟨?_, ?_, ?_, ?_, ?_⟩
  · intro h
    unfold postCloseAdjust
    rw [if_neg (by omega)]
  · intro h
    unfold postCloseAdjust
    rw [if_pos h]
  · intro d s p hd hle hs hp
    simp only [adjustRow, hd, if_pos hle]
    unfold strikeLEprice
    rw [hs, hp]
    by_cases hsp : s ≤ p
    · simp [hsp]
    · simp [hsp]
  · intro d hd hgt
    simp only [adjustRow, hd]
    rw [if_neg (by omega)]
  · intro hd
    simp only [adjustRow, hd]

/-- C8 witness: a post-close run at 16:00 with an option row expiring
2025-10-10 (before today 2025-10-12) at strike 100 against underlying
price 105 is marked Called Away. -/
theorem post_close_assignment_witness :
    postCloseAdjust 16 20251012 [prow] = [prow].map (adjustRow 20251012) ∧
    adjustRow 20251012 prow
      = { prow with action := "Called Away" } ∧
    (15 < 16 → postCloseAdjust 15 20251012 [prow] = [prow]) := by
  have h := post_close_assignment 16 20251012 [prow] prow
  have h15 := post_close_assignment 15 20251012 [prow] prow
  refine ⟨h.2.1 (by omega), ?_, fun _ => h15.1 (by omega)⟩
  have h2 := h.2.2.1 20251010 100 105 rfl (by omega) rfl rfl
  rw [h2]
  norm_num

/-- C10 counterexample: a portfolio snapshot whose first ticker AAA has a
one-row SLD trade and no matching yesterday row produces an AAA stock row
whose trade price is `none`: the build read the basis variable even though
no branch of the classification ever assigned it for AAA. -/
theorem basis_vars_unassigned_cx :
    (lookupD (annotate [yCCC] [("AAA", rowSLD)] 1000 gdZero
        [itemAAA, itemCCC] posStubs) "AAA").tradePrice = none := by
  decide

/-- C10 (amended): the annotation pass carries the basis variables in loop
state shared across tickers; for a ticker whose one-row trade action is SLD
with no matching yesterday row, no basis variable is assigned, so the built
row reads whatever an earlier-processed ticker left behind (nothing at all
when the ticker comes first), making the output depend on the snapshot's
row order: the same AAA position gets trade price `none` when AAA is
processed first and the stale value 7 inherited from CCC when CCC is
processed first. -/
theorem basis_vars_snapshot_order_dependent :
    (lookupD (annotate [yCCC] [("AAA", rowSLD)] 1000 gdZero
        [itemAAA, itemCCC] posStubs) "AAA").tradePrice = none ∧
    (lookupD (annotate [yCCC] [("AAA", rowSLD)] 1000 gdZero
        [itemCCC, itemAAA] posStubs) "AAA").tradePrice = some 7 := by
  refine ⟨by decide, by decide⟩

end TWS
